import Mathlib

/-!
Verification of the FileEngine gRPC client adapter
(src/fileengine/client.py) against its natural-language specification.

The adapter is shallowly embedded: Python dictionaries become ordered
association lists with in-place update (the semantics of Python dict
assignment), the gRPC stub becomes an explicit Backend record of
response oracles, and each adapter operation becomes a pure function
that returns its result together with the list of remote calls it
issued.  Byte payloads are lists of naturals, timestamps are integers.
-/

namespace FileEngine

/-- One element of the heterogeneous claims list accepted by
ManagedFiles.  A Python value that is neither a string, nor a dict,
nor a 2-tuple (for example an int, or a tuple of another length) is
represented by the constructor `otherShape`. -/
inductive ClaimElem where
  | str (s : String)
  | dict (entries : List (String × String))
  | pair (k v : String)
  | otherShape
deriving DecidableEq, Repr

/-- True exactly on the shapes the claims loop does not recognize. -/
def ClaimElem.isOtherShape : ClaimElem → Bool
  | .otherShape => true
  | _ => false

/-- Python dict assignment `d[k] = v` on an insertion-ordered
association list: update the value in place when the key is present,
append the pair otherwise. -/
def dictInsert : List (String × String) → String → String → List (String × String)
  | [], k, v => [(k, v)]
  | (k', v') :: rest, k, v =>
      if k' = k then (k', v) :: rest else (k', v') :: dictInsert rest k v

/-- One iteration of the claims loop of `_create_auth_context`
(client.py lines 140-149): a string claim is inserted as key=value,
a dict claim is merged entry by entry (`claims_map.update(claim)`),
a 2-tuple claim is inserted as key/value, and any other shape falls
through the if/elif chain with no effect. -/
def claimStep (m : List (String × String)) : ClaimElem → List (String × String)
  | .str s => dictInsert m s s
  | .dict es => es.foldl (fun m kv => dictInsert m kv.1 kv.2) m
  | .pair k v => dictInsert m k v
  | .otherShape => m

/-- The claims map built by `_create_auth_context` (client.py lines
138-149): start from the empty dict and run the loop over the resolved
claims list.  The `if actual_claims:` guard in the source only skips
the loop when the list is empty, which coincides with folding over the
empty list. -/
def claimsMap (claims : List ClaimElem) : List (String × String) :=
  claims.foldl claimStep []

/-- Modelled from the spec words (spec.md section 4.1): start with an
empty mapping, iterate the claims list in order inserting a string as
key=value, merging a mapping entry-wise, inserting a pair as
key/value; any other element shape is a usage error, rendered here as
the failure value `none` (the InvalidClaimShape condition). -/
def claimsMapSpec : List ClaimElem → List (String × String) → Option (List (String × String))
  | [], m => some m
  | .str s :: rest, m => claimsMapSpec rest (dictInsert m s s)
  | .dict es :: rest, m => claimsMapSpec rest (es.foldl (fun m kv => dictInsert m kv.1 kv.2) m)
  | .pair k v :: rest, m => claimsMapSpec rest (dictInsert m k v)
  | .otherShape :: _, _ => none

/-- The per-call authentication payload built by `_create_auth_context`
(the proto AuthenticationContext message). -/
structure AuthenticationContext where
  user : String
  roles : List String
  tenant : String
  claims : List (String × String)
deriving DecidableEq, Repr

/-- The mutable defaults held by a ManagedFiles instance (client.py
lines 85-90).  The connection handle and the permission resolver are
identity-free handles and are not part of the value model. -/
structure Session where
  user : String
  roles : List String
  claims : List ClaimElem
  tenant : String
deriving DecidableEq, Repr

/-- Resolution of the user override (client.py line 132):
`actual_user = user or self.user` is a truthiness test, so both an
omitted argument and an explicit empty string fall back to the
session default. -/
def resolveUser (s : Session) (user : Option String) : String :=
  match user with
  | some u => if u = "" then s.user else u
  | none => s.user

/-- `_create_auth_context` (client.py lines 130-156): resolve each
field, normalize the resolved claims list, and assemble the message.
tenant, roles and claims use an `is not None` test (lines 133-135),
so explicitly supplied empty values are honored. -/
def createAuthContext (s : Session) (user tenant : Option String)
    (roles : Option (List String)) (claims : Option (List ClaimElem)) :
    AuthenticationContext :=
  let actualUser := resolveUser s user
  let actualTenant := tenant.getD s.tenant
  let actualRoles := roles.getD s.roles
  let actualClaims := claims.getD s.claims
  ⟨actualUser, actualRoles, actualTenant, claimsMap actualClaims⟩

/-- `set_user_information` (client.py lines 116-123): each field is
assigned only when the corresponding argument is truthy, so None, an
empty string and an empty list all leave the field unchanged. -/
def set_user_information (s : Session) (userName : Option String)
    (roles : Option (List String)) (claims : Option (List ClaimElem)) : Session :=
  let u := match userName with
    | some n => if n = "" then s.user else n
    | none => s.user
  let r := match roles with
    | some l => if l = [] then s.roles else l
    | none => s.roles
  let c := match claims with
    | some l => if l = [] then s.claims else l
    | none => s.claims
  ⟨u, r, c, s.tenant⟩

/-- Outcome of one remote call: either the transport layer raised
grpc.RpcError before a response arrived, or a response message came
back (whose own success flag may still be false). -/
inductive RpcResult (α : Type) where
  | transportError
  | reply (response : α)
deriving DecidableEq, Repr

/-- File type codes of the proto FileType enum. -/
inductive FileType where
  | regularFile
  | directory
  | symlink
deriving DecidableEq, Repr

/-- The fields of the proto FileInfo message that the adapter reads. -/
structure FileInfo where
  name : String
  type : FileType
  modifiedAt : Int
  createdAt : Int
deriving DecidableEq, Repr

/-- Response of the Stat rpc. -/
structure StatResponse where
  success : Bool
  info : FileInfo
deriving DecidableEq, Repr

/-- Response of an rpc whose only relevant field is its success flag
(Move, Rename, RemoveFile, RemoveDirectory, PutFile). -/
structure BoolResponse where
  success : Bool
deriving DecidableEq, Repr

/-- Response of the ListVersions rpc: version timestamps as strings. -/
structure ListVersionsResponse where
  success : Bool
  versions : List String
deriving DecidableEq, Repr

/-- Response of the GetVersion rpc; data is the byte payload. -/
structure GetVersionResponse where
  success : Bool
  data : List Nat
deriving DecidableEq, Repr

/-- One entry of a ListDirectory response. -/
structure DirEntry where
  uid : String
  name : String
  type : FileType
  size : Nat
deriving DecidableEq, Repr

/-- Response of the ListDirectory / ListDirectoryWithDeleted rpcs. -/
structure ListDirectoryResponse where
  success : Bool
  entries : List DirEntry
deriving DecidableEq, Repr

/-- The remote service as seen through the stub: for every request
shape, the outcome the server produces.  Each oracle is a function of
the request fields, so a given request always has one outcome. -/
structure Backend where
  statRpc : String → AuthenticationContext → RpcResult StatResponse
  listVersionsRpc : String → AuthenticationContext → RpcResult ListVersionsResponse
  getVersionRpc : String → String → AuthenticationContext → RpcResult GetVersionResponse
  listDirectoryRpc : String → AuthenticationContext → RpcResult ListDirectoryResponse
  listDirectoryWithDeletedRpc : String → AuthenticationContext → RpcResult ListDirectoryResponse
  moveRpc : String → String → AuthenticationContext → RpcResult BoolResponse
  renameRpc : String → String → AuthenticationContext → RpcResult BoolResponse
  removeFileRpc : String → AuthenticationContext → RpcResult BoolResponse
  removeDirectoryRpc : String → AuthenticationContext → RpcResult BoolResponse
  putFileRpc : String → List Nat → AuthenticationContext → RpcResult BoolResponse

/-- Trace events: one per rpc issued by the adapter, recording the
request kind and its identifying fields. -/
inductive Call where
  | stat (uid : String)
  | listVersions (uid : String)
  | getVersion (uid version : String)
  | listDirectory (uid : String)
  | listDirectoryWithDeleted (uid : String)
  | move (src dst : String)
  | rename (uid name : String)
  | removeFile (uid : String)
  | removeDirectory (uid : String)
  | putFile (uid : String)
deriving DecidableEq, Repr

/-- True on content-fetch (GetVersion) trace events. -/
def Call.isGetVersion : Call → Bool
  | .getVersion _ _ => true
  | _ => false

/-- True on Rename trace events. -/
def Call.isRename : Call → Bool
  | .rename _ _ => true
  | _ => false

/-- True on RemoveFile trace events. -/
def Call.isRemoveFile : Call → Bool
  | .removeFile _ => true
  | _ => false

/-- True on RemoveDirectory trace events. -/
def Call.isRemoveDirectory : Call → Bool
  | .removeDirectory _ => true
  | _ => false

/-- One revision dictionary produced by `revisions`. -/
structure RevisionEntry where
  version : String
  name : String
  user : String
deriving DecidableEq, Repr

/-- The display name computed by `revisions` (client.py line 500):
the last dash-separated component of the uid when it contains a dash,
the uid itself otherwise. -/
def revisionName (uid : String) : String :=
  if uid.contains '-' then (uid.splitOn "-").getLastD uid else uid

/-- `revisions` (client.py lines 472-507): one ListVersions rpc; on a
successful response, one dictionary per version timestamp; the empty
list on transport failure or an unsuccessful response. -/
def revisions (b : Backend) (s : Session) (uid : String)
    (user tenant : Option String) (roles : Option (List String))
    (claims : Option (List ClaimElem)) : List RevisionEntry × List Call :=
  let auth := createAuthContext s user tenant roles claims
  match b.listVersionsRpc uid auth with
  | .transportError => ([], [.listVersions uid])
  | .reply r =>
      if r.success then
        (r.versions.map (fun v => ⟨v, revisionName uid, auth.user⟩), [.listVersions uid])
      else ([], [.listVersions uid])

/-- The overrides that `get` and `dir` pass to their nested calls
(client.py lines 287-290 and 436-439): the fields of the already
resolved auth context, with the claims map collapsed to its key list
(each key re-enters as a plain string claim). -/
def nestedClaims (auth : AuthenticationContext) : List ClaimElem :=
  auth.claims.map (fun kv => ClaimElem.str kv.1)

/-- Result of `get`: a buffer holding the fetched bytes, or False. -/
inductive GetResult where
  | failure
  | content (data : List Nat)
deriving DecidableEq, Repr

/-- `get` (client.py lines 418-468): resolve the auth context, list
the revisions through `revisions`, fail when the offset is not below
the revision count (`if not versions or len(versions) <= back`, which
for a nonnegative offset is the length test alone), otherwise fetch
the version at index `back` with one GetVersion rpc and return its
bytes in a fresh buffer. -/
def get (b : Backend) (s : Session) (uid : String) (back : Nat)
    (user tenant : Option String) (roles : Option (List String))
    (claims : Option (List ClaimElem)) : GetResult × List Call :=
  let auth := createAuthContext s user tenant roles claims
  let rv := revisions b s uid (some auth.user) (some auth.tenant)
      (some auth.roles) (some (nestedClaims auth))
  if rv.1.length ≤ back then (.failure, rv.2)
  else
    let vt := (rv.1.getD back ⟨"", "", ""⟩).version
    match b.getVersionRpc uid vt auth with
    | .transportError => (.failure, rv.2 ++ [.getVersion uid vt])
    | .reply r =>
        if r.success then (.content r.data, rv.2 ++ [.getVersion uid vt])
        else (.failure, rv.2 ++ [.getVersion uid vt])

/-- `rename` (client.py lines 677-703): one Rename rpc, success flag
of the response, False on transport failure. -/
def rename (b : Backend) (s : Session) (uid newName : String)
    (user tenant : Option String) (roles : Option (List String))
    (claims : Option (List ClaimElem)) : Bool × List Call :=
  let auth := createAuthContext s user tenant roles claims
  match b.renameRpc uid newName auth with
  | .transportError => (false, [.rename uid newName])
  | .reply r => (r.success, [.rename uid newName])

/-- The truthiness test `response.success and new_name` applies to the
optional new name (client.py line 598): None and the empty string are
falsy. -/
def nameRequested : Option String → Bool
  | none => false
  | some n => !(n = "")

/-- `move` (client.py lines 570-604): one Move rpc; when it succeeds
and a truthy new name was supplied, one further `rename` call on the
source uid whose result becomes the composite result; otherwise the
Move success flag; False on transport failure. -/
def move (b : Backend) (s : Session) (sourceUid destinationUid : String)
    (newName : Option String) (user tenant : Option String)
    (roles : Option (List String)) (claims : Option (List ClaimElem)) :
    Bool × List Call :=
  let auth := createAuthContext s user tenant roles claims
  match b.moveRpc sourceUid destinationUid auth with
  | .transportError => (false, [.move sourceUid destinationUid])
  | .reply r =>
      if r.success && nameRequested newName then
        let rn := rename b s sourceUid (newName.getD "") user tenant roles claims
        (rn.1, [Call.move sourceUid destinationUid] ++ rn.2)
      else (r.success, [.move sourceUid destinationUid])

/-- `remove` (client.py lines 634-675): one Stat rpc; when it replies
with success and directory type, one RemoveDirectory rpc, otherwise
(file or symlink type, or an unsuccessful Stat reply) one RemoveFile
rpc; the removal success flag is the result; a transport failure of
any of the rpcs yields False (the whole body is one try block). -/
def remove (b : Backend) (s : Session) (uid : String)
    (user tenant : Option String) (roles : Option (List String))
    (claims : Option (List ClaimElem)) : Bool × List Call :=
  let auth := createAuthContext s user tenant roles claims
  match b.statRpc uid auth with
  | .transportError => (false, [.stat uid])
  | .reply info =>
      if info.success && info.info.type = FileType.directory then
        match b.removeDirectoryRpc uid auth with
        | .transportError => (false, [.stat uid, .removeDirectory uid])
        | .reply r => (r.success, [.stat uid, .removeDirectory uid])
      else
        match b.removeFileRpc uid auth with
        | .transportError => (false, [.stat uid, .removeFile uid])
        | .reply r => (r.success, [.stat uid, .removeFile uid])

/-- Outcome of `put`: the NotImplementedError raise, a wall-clock
version stamp, or the False sentinel. -/
inductive PutOutcome where
  | raised
  | version (stamp : Int)
  | failure
deriving DecidableEq, Repr

/-- `put` (client.py lines 376-416): requesting the streaming-write
mode raises before anything else runs; otherwise a None payload
becomes the empty byte string (string payloads are already bytes in
this byte-level model), one PutFile rpc is issued, and success returns
the current wall clock (`time.time()`, the `now` argument here) while
an unsuccessful reply or a transport failure returns False. -/
def put (b : Backend) (s : Session) (uid : String)
    (payload : Option (List Nat)) (returnOpen : Bool)
    (user tenant : Option String) (roles : Option (List String))
    (claims : Option (List ClaimElem)) (now : Int) : PutOutcome × List Call :=
  if returnOpen then (.raised, [])
  else
    let payload := payload.getD []
    let auth := createAuthContext s user tenant roles claims
    match b.putFileRpc uid payload auth with
    | .transportError => (.failure, [.putFile uid])
    | .reply r =>
        if r.success then (.version now, [.putFile uid])
        else (.failure, [.putFile uid])

/-- `get_file_mtime` (client.py lines 511-526): one Stat rpc; the
modification timestamp on success (the source wraps it in a datetime,
modelled here by the raw timestamp), None otherwise. -/
def get_file_mtime (b : Backend) (s : Session) (uid : String)
    (user tenant : Option String) (roles : Option (List String))
    (claims : Option (List ClaimElem)) : Option Int × List Call :=
  let auth := createAuthContext s user tenant roles claims
  match b.statRpc uid auth with
  | .transportError => (none, [.stat uid])
  | .reply r =>
      if r.success then (some r.info.modifiedAt, [.stat uid])
      else (none, [.stat uid])

/-- `file_name` (client.py lines 545-560): one Stat rpc; a singleton
list holding the name on success, the empty list on an unsuccessful
reply or transport failure. -/
def file_name (b : Backend) (s : Session) (uid : String)
    (user tenant : Option String) (roles : Option (List String))
    (claims : Option (List ClaimElem)) : List String × List Call :=
  let auth := createAuthContext s user tenant roles claims
  match b.statRpc uid auth with
  | .transportError => ([], [.stat uid])
  | .reply r =>
      if r.success then ([r.info.name], [.stat uid])
      else ([], [.stat uid])

/-- One dictionary of the `dir` listing.  The three optional fields
are present only when the entry is a regular file whose revision
lookup returned a nonempty list; mtime then holds the result of
`get_file_mtime`, which may itself be None. -/
structure DirItem where
  uid : String
  name : String
  creator : String
  isContainer : String
  uploadingUser : Option String
  version : Option String
  mtime : Option (Option Int)
deriving DecidableEq, Repr

/-- Result of `dir`: the enriched listing, or the False sentinel. -/
inductive DirResult where
  | failure
  | entries (items : List DirItem)
deriving DecidableEq, Repr

/-- The per-entry body of the `dir` loop (client.py lines 275-299). -/
def dirStep (b : Backend) (s : Session) (auth : AuthenticationContext)
    (acc : List DirItem × List Call) (entry : DirEntry) :
    List DirItem × List Call :=
  let isContainer := if entry.type = FileType.directory then "True" else "False"
  if entry.type = FileType.regularFile then
    let rv := revisions b s entry.uid (some auth.user) (some auth.tenant)
        (some auth.roles) (some (nestedClaims auth))
    if rv.1 ≠ [] then
      let mt := get_file_mtime b s entry.uid (some auth.user) (some auth.tenant)
          (some auth.roles) (some (nestedClaims auth))
      (acc.1 ++ [⟨entry.uid, entry.name, auth.user, isContainer,
          some auth.user, some (rv.1.headD ⟨"", "", ""⟩).version, some mt.1⟩],
       acc.2 ++ rv.2 ++ mt.2)
    else
      (acc.1 ++ [⟨entry.uid, entry.name, auth.user, isContainer, none, none, none⟩],
       acc.2 ++ rv.2)
  else
    (acc.1 ++ [⟨entry.uid, entry.name, auth.user, isContainer, none, none, none⟩],
     acc.2)

/-- `dir` (client.py lines 239-303): one listing rpc (the deleted
variant when show_deleted is set), the False sentinel on transport
failure or an unsuccessful reply, otherwise one dictionary per entry
with best-effort enrichment of regular files through `revisions` and
`get_file_mtime` (both of which swallow their own failures). -/
def dir (b : Backend) (s : Session) (uid : String) (showDeleted : Bool)
    (user tenant : Option String) (roles : Option (List String))
    (claims : Option (List ClaimElem)) : DirResult × List Call :=
  let auth := createAuthContext s user tenant roles claims
  let listCall := if showDeleted then Call.listDirectoryWithDeleted uid
      else Call.listDirectory uid
  let resp := if showDeleted then b.listDirectoryWithDeletedRpc uid auth
      else b.listDirectoryRpc uid auth
  match resp with
  | .transportError => (.failure, [listCall])
  | .reply r =>
      if !r.success then (.failure, [listCall])
      else
        let folded := r.entries.foldl (dirStep b s auth) ([], [])
        (.entries folded.1, [listCall] ++ folded.2)

/-! ## Concrete fixtures used by the witness theorems -/

/-- A concrete session: defaults as set up by the constructor. -/
def exSession : Session :=
  ⟨"alice", ["user"], [ClaimElem.str "read"], "acme"⟩

/-- A backend whose every rpc fails at the transport level. -/
def bDown : Backend :=
  ⟨fun _ _ => .transportError, fun _ _ => .transportError,
   fun _ _ _ => .transportError, fun _ _ => .transportError,
   fun _ _ => .transportError, fun _ _ _ => .transportError,
   fun _ _ _ => .transportError, fun _ _ => .transportError,
   fun _ _ => .transportError, fun _ _ _ => .transportError⟩

/-! ## Helper lemmas -/

/-- On a list free of unrecognized shapes, the spec-worded
normalization computes exactly the fold the code performs. -/
lemma claimsMapSpec_eq_foldl (claims : List ClaimElem) :
    ∀ m, (∀ c ∈ claims, c.isOtherShape = false) →
      claimsMapSpec claims m = some (claims.foldl claimStep m) := by
  induction claims with
  | nil => intro m _; rfl
  | cons c rest ih =>
    intro m h
    have hrest : ∀ c ∈ rest, c.isOtherShape = false :=
      fun c hc => h c (List.mem_cons_of_mem _ hc)
    cases c with
    | str s => exact ih _ hrest
    | dict es => exact ih _ hrest
    | pair k v => exact ih _ hrest
    | otherShape =>
        have := h _ (List.mem_cons_self _ _)
        simp [ClaimElem.isOtherShape] at this

/-- Dropping the unrecognized-shape elements does not change the fold:
each such element is a no-op of the loop body. -/
lemma foldl_claimStep_filter (claims : List ClaimElem) :
    ∀ m, claims.foldl claimStep m =
      (claims.filter (fun c => !c.isOtherShape)).foldl claimStep m := by
  induction claims with
  | nil => intro m; rfl
  | cons c rest ih =>
    intro m
    cases c with
    | str s => simpa [ClaimElem.isOtherShape] using ih (claimStep m (ClaimElem.str s))
    | dict es => simpa [ClaimElem.isOtherShape] using ih (claimStep m (ClaimElem.dict es))
    | pair k v => simpa [ClaimElem.isOtherShape] using ih (claimStep m (ClaimElem.pair k v))
    | otherShape => simpa [ClaimElem.isOtherShape, claimStep] using ih m

/-- `revisions` issues exactly one rpc, the ListVersions one. -/
lemma revisions_trace (b : Backend) (s : Session) (uid : String)
    (user tenant : Option String) (roles : Option (List String))
    (claims : Option (List ClaimElem)) :
    (revisions b s uid user tenant roles claims).2 = [Call.listVersions uid] := by
  simp only [revisions]
  cases b.listVersionsRpc uid (createAuthContext s user tenant roles claims) with
  | transportError => rfl
  | reply r => by_cases h : r.success <;> simp [h]

/-! ## Claim theorems -/

/-- C1: for a supplied claims list whose elements are plain strings,
mappings and 2-element pairs, the claims map `_create_auth_context`
builds equals the map obtained by the spec procedure: start empty and
in list order insert key=value=s for a string, merge all entries of a
mapping, insert a pair as key/value, later positions overriding
earlier ones on key collision. -/
theorem claims_normalization_matches_spec (claims : List ClaimElem)
    (h : ∀ c ∈ claims, c.isOtherShape = false) :
    claimsMapSpec claims [] = some (claimsMap claims) :=
  claimsMapSpec_eq_foldl claims [] h

/-- Witness for C1 on the spec example list. -/
theorem claims_normalization_matches_spec_witness :
    claimsMapSpec [ClaimElem.str "a", ClaimElem.dict [("k", "v")],
        ClaimElem.pair "x" "y"] [] =
      some (claimsMap [ClaimElem.str "a", ClaimElem.dict [("k", "v")],
        ClaimElem.pair "x" "y"]) ∧
    claimsMap [ClaimElem.str "a", ClaimElem.dict [("k", "v")],
        ClaimElem.pair "x" "y"] = [("a", "a"), ("k", "v"), ("x", "y")] :=
  ⟨claims_normalization_matches_spec _ (by decide), by decide⟩

/-- C2 counterexample: an explicitly supplied empty-string user does
not resolve to the supplied value; the truthiness test of
`user or self.user` falls back to the session default. -/
theorem override_empty_user_falls_back :
    (createAuthContext exSession (some "") none none none).user = "alice" ∧
    "alice" ≠ "" := by
  exact ⟨rfl, by decide⟩

/-- C2 amended: omitted overrides resolve to the session defaults;
supplied tenant, roles and claims overrides are honored even when
empty; a supplied user override is honored only when non-empty, and a
supplied empty-string user falls back to the session default. -/
theorem override_resolution (s : Session) (u t : Option String)
    (r : Option (List String)) (c : Option (List ClaimElem)) :
    (u = none → (createAuthContext s u t r c).user = s.user) ∧
    (u = some "" → (createAuthContext s u t r c).user = s.user) ∧
    (∀ x, u = some x → x ≠ "" → (createAuthContext s u t r c).user = x) ∧
    (t = none → (createAuthContext s u t r c).tenant = s.tenant) ∧
    (∀ x, t = some x → (createAuthContext s u t r c).tenant = x) ∧
    (r = none → (createAuthContext s u t r c).roles = s.roles) ∧
    (∀ x, r = some x → (createAuthContext s u t r c).roles = x) ∧
    (c = none → (createAuthContext s u t r c).claims = claimsMap s.claims) ∧
    (∀ x, c = some x → (createAuthContext s u t r c).claims = claimsMap x) := by
  refine ⟨?_, ?_, ?_, ?_, ?_, ?_, ?_, ?_, ?_⟩
  · intro h; subst h; rfl
  · intro h; subst h; rfl
  · intro x h hx; subst h; simp [createAuthContext, resolveUser, hx]
  · intro h; subst h; rfl
  · intro x h; subst h; rfl
  · intro h; subst h; rfl
  · intro x h; subst h; rfl
  · intro h; subst h; rfl
  · intro x h; subst h; rfl

/-- Witness for C2 amended: a non-empty user override together with
explicitly empty tenant and roles overrides. -/
theorem override_resolution_witness :
    (createAuthContext exSession (some "bob") (some "") (some []) none).user = "bob" ∧
    (createAuthContext exSession (some "bob") (some "") (some []) none).tenant = "" ∧
    (createAuthContext exSession (some "bob") (some "") (some []) none).roles = [] ∧
    (createAuthContext exSession (some "bob") (some "") (some []) none).claims =
      claimsMap exSession.claims := by
  obtain ⟨h1, h2, h3, h4, h5, h6, h7, h8, h9⟩ :=
    override_resolution exSession (some "bob") (some "") (some []) none
  exact ⟨h3 "bob" rfl (by decide), h5 "" rfl, h7 [] rfl, h8 rfl⟩

/-- C3 counterexample: a claims list holding an unrecognized element
shape produces the same map as the list without it, and no failure is
signalled by the code, whereas the spec procedure fails there. -/
theorem invalid_shape_silently_ignored :
    claimsMap [ClaimElem.otherShape, ClaimElem.str "a"] =
      claimsMap [ClaimElem.str "a"] ∧
    claimsMap [ClaimElem.otherShape, ClaimElem.str "a"] = [("a", "a")] ∧
    claimsMapSpec [ClaimElem.otherShape, ClaimElem.str "a"] [] = none := by
  refine ⟨rfl, rfl, rfl⟩

/-- C3 amended: an element that is neither a string, nor a mapping,
nor a 2-element pair is silently skipped by `_create_auth_context`:
the resulting claims map is that of the recognized elements alone, and
the function signals no error (its result type has no error case). -/
theorem invalid_shapes_skipped (claims : List ClaimElem) :
    claimsMap claims = claimsMap (claims.filter (fun c => !c.isOtherShape)) :=
  foldl_claimStep_filter claims []

/-- C10: `set_user_information` updates a session field only when the
corresponding argument is truthy: None, an empty string and an empty
list each leave the field unchanged, and every field not updated keeps
its previous value (the tenant is never touched). -/
theorem set_user_information_truthy_updates (s : Session)
    (u : Option String) (r : Option (List String))
    (c : Option (List ClaimElem)) :
    ((u = none ∨ u = some "") → (set_user_information s u r c).user = s.user) ∧
    (∀ n, u = some n → n ≠ "" → (set_user_information s u r c).user = n) ∧
    ((r = none ∨ r = some []) → (set_user_information s u r c).roles = s.roles) ∧
    (∀ l, r = some l → l ≠ [] → (set_user_information s u r c).roles = l) ∧
    ((c = none ∨ c = some []) → (set_user_information s u r c).claims = s.claims) ∧
    (∀ l, c = some l → l ≠ [] → (set_user_information s u r c).claims = l) ∧
    (set_user_information s u r c).tenant = s.tenant := by
  refine ⟨?_, ?_, ?_, ?_, ?_, ?_, rfl⟩
  · rintro (h | h) <;> subst h <;> rfl
  · intro n h hn; subst h; simp [set_user_information, hn]
  · rintro (h | h) <;> subst h <;> rfl
  · intro l h hl; subst h; simp [set_user_information, hl]
  · rintro (h | h) <;> subst h <;> rfl
  · intro l h hl; subst h; simp [set_user_information, hl]

/-- Witness for C10: empty string, empty list and omitted arguments
leave every field of the concrete session unchanged. -/
theorem set_user_information_truthy_updates_witness :
    (set_user_information exSession (some "") (some []) none).user = exSession.user ∧
    (set_user_information exSession (some "") (some []) none).roles = exSession.roles ∧
    (set_user_information exSession (some "") (some []) none).claims = exSession.claims ∧
    (set_user_information exSession (some "") (some []) none).tenant = exSession.tenant := by
  obtain ⟨h1, h2, h3, h4, h5, h6, h7⟩ :=
    set_user_information_truthy_updates exSession (some "") (some []) none
  exact ⟨h1 (Or.inr rfl), h3 (Or.inr rfl), h5 (Or.inl rfl), h7⟩

/-- `rename` issues exactly one rpc, the Rename one. -/
lemma rename_trace (b : Backend) (s : Session) (uid newName : String)
    (user tenant : Option String) (roles : Option (List String))
    (claims : Option (List ClaimElem)) :
    (rename b s uid newName user tenant roles claims).2 =
      [Call.rename uid newName] := by
  simp only [rename]
  cases b.renameRpc uid newName (createAuthContext s user tenant roles claims) <;> rfl

/-- C4: `get` with a versions-back offset first obtains the revision
list; when the offset is not below the number of revisions it returns
the failure value with no content-fetch call issued; otherwise it
issues exactly one content-fetch call, for the version at index `back`
of the revision list, and returns that content on a successful
reply. -/
theorem get_back_offset (b : Backend) (s : Session) (uid : String)
    (back : Nat) (user tenant : Option String) (roles : Option (List String))
    (claims : Option (List ClaimElem)) (auth : AuthenticationContext)
    (rv : List RevisionEntry × List Call)
    (hauth : auth = createAuthContext s user tenant roles claims)
    (hrv : rv = revisions b s uid (some auth.user) (some auth.tenant)
        (some auth.roles) (some (nestedClaims auth))) :
    (rv.1.length ≤ back →
        (get b s uid back user tenant roles claims).1 = GetResult.failure ∧
        (get b s uid back user tenant roles claims).2.countP Call.isGetVersion = 0) ∧
    (back < rv.1.length →
        (get b s uid back user tenant roles claims).2.countP Call.isGetVersion = 1 ∧
        Call.getVersion uid (rv.1.getD back ⟨"", "", ""⟩).version ∈
          (get b s uid back user tenant roles claims).2 ∧
        (∀ data, b.getVersionRpc uid (rv.1.getD back ⟨"", "", ""⟩).version auth =
            RpcResult.reply ⟨true, data⟩ →
          (get b s uid back user tenant roles claims).1 = GetResult.content data)) := by
  subst hauth
  have htr : rv.2 = [Call.listVersions uid] := by
    rw [hrv]; exact revisions_trace b s uid _ _ _ _
  constructor
  · intro h
    constructor
    · simp [get, ← hrv, h]
    · simp [get, ← hrv, h, htr, Call.isGetVersion]
  · intro h
    have h' : ¬ rv.1.length ≤ back := not_le.mpr h
    simp only [get, ← hrv, if_neg h']
    cases hres : b.getVersionRpc uid (rv.1.getD back ⟨"", "", ""⟩).version
        (createAuthContext s user tenant roles claims) with
    | transportError =>
        refine ⟨?_, ?_, ?_⟩
        · simp [htr, Call.isGetVersion]
        · simp
        · intro data hdata
          exact absurd hdata (by simp)
    | reply resp =>
        by_cases hs : resp.success
        · refine ⟨?_, ?_, ?_⟩
          · simp [hs, htr, Call.isGetVersion]
          · simp [hs]
          · intro data hdata
            have h2 : resp = (⟨true, data⟩ : GetVersionResponse) := by
              injection hdata
            subst h2
            simp
        · refine ⟨?_, ?_, ?_⟩
          · simp [hs, htr, Call.isGetVersion]
          · simp [hs]
          · intro data hdata
            have h2 : resp = (⟨true, data⟩ : GetVersionResponse) := by
              injection hdata
            subst h2
            simp at hs

/-- A backend with one file "f" holding revisions v2 then v1, where
fetching v2 yields the bytes 1, 2. -/
def bGet : Backend :=
  ⟨fun _ _ => .transportError,
   fun uid _ => if uid = "f" then .reply ⟨true, ["v2", "v1"]⟩ else .transportError,
   fun uid vt _ => if uid = "f" && vt = "v2" then .reply ⟨true, [1, 2]⟩
     else .transportError,
   fun _ _ => .transportError, fun _ _ => .transportError,
   fun _ _ _ => .transportError, fun _ _ _ => .transportError,
   fun _ _ => .transportError, fun _ _ => .transportError,
   fun _ _ _ => .transportError⟩

/-- Witness for C4: offset 0 on the two-revision file fetches v2 and
returns its bytes through exactly one content-fetch call. -/
theorem get_back_offset_witness :
    (get bGet exSession "f" 0 none none none none).1 = GetResult.content [1, 2] ∧
    (get bGet exSession "f" 0 none none none none).2.countP Call.isGetVersion = 1 := by
  have h := get_back_offset bGet exSession "f" 0 none none none none _ _ rfl rfl
  exact ⟨(h.2 (by decide)).2.2 [1, 2] (by decide), (h.2 (by decide)).1⟩

/-- C5: when the Move rpc fails at either tier, the composite returns
False and no rename is issued; when it succeeds and a truthy new name
was requested, a Rename call on the moved identifier is issued and the
composite result is the rename result; when it succeeds and no new
name was requested, the result is the Move success flag. -/
theorem move_with_rename (b : Backend) (s : Session)
    (src dst : String) (newName : Option String)
    (user tenant : Option String) (roles : Option (List String))
    (claims : Option (List ClaimElem)) (auth : AuthenticationContext)
    (hauth : auth = createAuthContext s user tenant roles claims) :
    (b.moveRpc src dst auth = RpcResult.transportError →
        move b s src dst newName user tenant roles claims =
          (false, [Call.move src dst])) ∧
    (∀ resp, b.moveRpc src dst auth = RpcResult.reply resp →
        resp.success = false →
        move b s src dst newName user tenant roles claims =
          (false, [Call.move src dst])) ∧
    (∀ resp, b.moveRpc src dst auth = RpcResult.reply resp →
        resp.success = true → nameRequested newName = true →
        (move b s src dst newName user tenant roles claims).1 =
          (rename b s src (newName.getD "") user tenant roles claims).1 ∧
        Call.rename src (newName.getD "") ∈
          (move b s src dst newName user tenant roles claims).2) ∧
    (∀ resp, b.moveRpc src dst auth = RpcResult.reply resp →
        resp.success = true → nameRequested newName = false →
        move b s src dst newName user tenant roles claims =
          (resp.success, [Call.move src dst])) := by
  subst hauth
  refine ⟨?_, ?_, ?_, ?_⟩
  · intro h
    simp [move, h]
  · intro resp h hs
    simp [move, h, hs]
  · intro resp h hs hn
    constructor
    · simp [move, h, hs, hn]
    · simp [move, h, hs, hn, rename_trace]
  · intro resp h hs hn
    simp [move, h, hs, hn]

/-- A backend where both the Move and the Rename rpcs succeed. -/
def bMove : Backend :=
  ⟨fun _ _ => .transportError, fun _ _ => .transportError,
   fun _ _ _ => .transportError, fun _ _ => .transportError,
   fun _ _ => .transportError, fun _ _ _ => .reply ⟨true⟩,
   fun _ _ _ => .reply ⟨true⟩, fun _ _ => .transportError,
   fun _ _ => .transportError, fun _ _ _ => .transportError⟩

/-- Witness for C5: a successful move with a requested name issues the
rename on the moved identifier and returns the rename result. -/
theorem move_with_rename_witness :
    (move bMove exSession "s" "d" (some "n") none none none none).1 = true ∧
    Call.rename "s" "n" ∈
      (move bMove exSession "s" "d" (some "n") none none none none).2 := by
  have h := move_with_rename bMove exSession "s" "d" (some "n")
      none none none none _ rfl
  have h3 := h.2.2.1 ⟨true⟩ (by decide) rfl (by decide)
  refine ⟨?_, h3.2⟩
  rw [h3.1]
  decide

/-- C6: `remove` stats the target first; a successful Stat reply of
directory type routes to the directory-removal rpc and never the
file-removal rpc, a successful reply of regular-file type routes to
the file-removal rpc and never the directory-removal rpc, and a Stat
transport failure returns False with neither removal rpc issued. -/
theorem remove_dispatch (b : Backend) (s : Session) (uid : String)
    (user tenant : Option String) (roles : Option (List String))
    (claims : Option (List ClaimElem)) (auth : AuthenticationContext)
    (hauth : auth = createAuthContext s user tenant roles claims) :
    (b.statRpc uid auth = RpcResult.transportError →
        remove b s uid user tenant roles claims = (false, [Call.stat uid])) ∧
    (∀ info, b.statRpc uid auth = RpcResult.reply info →
        info.success = true → info.info.type = FileType.directory →
        (remove b s uid user tenant roles claims).2.countP
            Call.isRemoveDirectory = 1 ∧
        (remove b s uid user tenant roles claims).2.countP
            Call.isRemoveFile = 0) ∧
    (∀ info, b.statRpc uid auth = RpcResult.reply info →
        info.success = true → info.info.type = FileType.regularFile →
        (remove b s uid user tenant roles claims).2.countP
            Call.isRemoveFile = 1 ∧
        (remove b s uid user tenant roles claims).2.countP
            Call.isRemoveDirectory = 0) := by
  subst hauth
  refine ⟨?_, ?_, ?_⟩
  · intro h
    simp [remove, h]
  · intro info h hs ht
    simp only [remove, h, hs, ht]
    cases b.removeDirectoryRpc uid (createAuthContext s user tenant roles claims) with
    | transportError => simp [Call.isRemoveDirectory, Call.isRemoveFile]
    | reply r => simp [Call.isRemoveDirectory, Call.isRemoveFile]
  · intro info h hs ht
    simp only [remove, h, hs, ht]
    cases b.removeFileRpc uid (createAuthContext s user tenant roles claims) with
    | transportError => simp [Call.isRemoveDirectory, Call.isRemoveFile]
    | reply r => simp [Call.isRemoveDirectory, Call.isRemoveFile]

/-- A backend whose Stat reports a directory and whose directory
removal succeeds. -/
def bRemoveDir : Backend :=
  ⟨fun _ _ => .reply ⟨true, ⟨"d", FileType.directory, 0, 0⟩⟩,
   fun _ _ => .transportError, fun _ _ _ => .transportError,
   fun _ _ => .transportError, fun _ _ => .transportError,
   fun _ _ _ => .transportError, fun _ _ _ => .transportError,
   fun _ _ => .transportError, fun _ _ => .reply ⟨true⟩,
   fun _ _ _ => .transportError⟩

/-- Witness for C6: removing a directory-typed target issues exactly
the directory-removal rpc. -/
theorem remove_dispatch_witness :
    (remove bRemoveDir exSession "d" none none none none).2.countP
        Call.isRemoveDirectory = 1 ∧
    (remove bRemoveDir exSession "d" none none none none).2.countP
        Call.isRemoveFile = 0 := by
  have h := remove_dispatch bRemoveDir exSession "d" none none none none _ rfl
  exact h.2.1 ⟨true, ⟨"d", FileType.directory, 0, 0⟩⟩ (by decide) rfl rfl

/-- C9: when Stat completes at the transport level but its success
flag is false, `remove` does not short-circuit: it issues the
file-removal rpc, and when that rpc completes, the result is its
success flag. -/
theorem remove_stat_app_failure (b : Backend) (s : Session) (uid : String)
    (user tenant : Option String) (roles : Option (List String))
    (claims : Option (List ClaimElem)) (auth : AuthenticationContext)
    (hauth : auth = createAuthContext s user tenant roles claims) :
    ∀ info, b.statRpc uid auth = RpcResult.reply info →
      info.success = false →
      (Call.removeFile uid ∈ (remove b s uid user tenant roles claims).2 ∧
       (∀ r, b.removeFileRpc uid auth = RpcResult.reply r →
          (remove b s uid user tenant roles claims).1 = r.success)) := by
  subst hauth
  intro info h hs
  simp only [remove, h, hs, Bool.false_and, Bool.false_eq_true, if_false]
  cases hrf : b.removeFileRpc uid (createAuthContext s user tenant roles claims) with
  | transportError =>
      refine ⟨by simp, ?_⟩
      intro r hr
      exact absurd hr (by simp)
  | reply r =>
      refine ⟨by simp, ?_⟩
      intro r' hr
      have h2 : r = r' := by injection hr
      subst h2
      simp

/-- A backend whose Stat replies unsuccessfully and whose file removal
succeeds. -/
def bStatAppFail : Backend :=
  ⟨fun _ _ => .reply ⟨false, ⟨"f", FileType.regularFile, 0, 0⟩⟩,
   fun _ _ => .transportError, fun _ _ _ => .transportError,
   fun _ _ => .transportError, fun _ _ => .transportError,
   fun _ _ _ => .transportError, fun _ _ _ => .transportError,
   fun _ _ => .reply ⟨true⟩, fun _ _ => .transportError,
   fun _ _ _ => .transportError⟩

/-- Witness for C9: an unsuccessful Stat reply still leads to the
file-removal rpc, whose success flag becomes the result. -/
theorem remove_stat_app_failure_witness :
    Call.removeFile "f" ∈ (remove bStatAppFail exSession "f" none none none none).2 ∧
    (remove bStatAppFail exSession "f" none none none none).1 = true := by
  have h := remove_stat_app_failure bStatAppFail exSession "f"
      none none none none _ rfl
      ⟨false, ⟨"f", FileType.regularFile, 0, 0⟩⟩ (by decide) rfl
  exact ⟨h.1, h.2 ⟨true⟩ (by decide)⟩

/-- C7 counterexample: on a transport failure `dir` returns the False
sentinel, which is not an empty sequence: it differs from the listing
value holding no entries. -/
theorem dir_failure_value_not_empty_sequence :
    (dir bDown exSession "d" false none none none none).1 = DirResult.failure ∧
    DirResult.failure ≠ DirResult.entries [] := by
  refine ⟨rfl, by simp⟩

/-- C7 amended: on a transport failure or an application-level failure
of the remote call, `revisions` and `file_name` return the empty
sequence, while `dir` returns the False sentinel (not an empty
sequence); none of the three raises, their embedded results being
total values. -/
theorem listing_failure_values (b : Backend) (s : Session) (uid : String)
    (user tenant : Option String) (roles : Option (List String))
    (claims : Option (List ClaimElem)) (auth : AuthenticationContext)
    (hauth : auth = createAuthContext s user tenant roles claims) :
    (b.listDirectoryRpc uid auth = RpcResult.transportError →
        (dir b s uid false user tenant roles claims).1 = DirResult.failure) ∧
    (∀ r, b.listDirectoryRpc uid auth = RpcResult.reply r → r.success = false →
        (dir b s uid false user tenant roles claims).1 = DirResult.failure) ∧
    (b.listDirectoryWithDeletedRpc uid auth = RpcResult.transportError →
        (dir b s uid true user tenant roles claims).1 = DirResult.failure) ∧
    (∀ r, b.listDirectoryWithDeletedRpc uid auth = RpcResult.reply r →
        r.success = false →
        (dir b s uid true user tenant roles claims).1 = DirResult.failure) ∧
    (b.listVersionsRpc uid auth = RpcResult.transportError →
        (revisions b s uid user tenant roles claims).1 = []) ∧
    (∀ r, b.listVersionsRpc uid auth = RpcResult.reply r → r.success = false →
        (revisions b s uid user tenant roles claims).1 = []) ∧
    (b.statRpc uid auth = RpcResult.transportError →
        (file_name b s uid user tenant roles claims).1 = []) ∧
    (∀ r, b.statRpc uid auth = RpcResult.reply r → r.success = false →
        (file_name b s uid user tenant roles claims).1 = []) := by
  subst hauth
  refine ⟨?_, ?_, ?_, ?_, ?_, ?_, ?_, ?_⟩
  · intro h; simp [dir, h]
  · intro r h hs; simp [dir, h, hs]
  · intro h; simp [dir, h]
  · intro r h hs; simp [dir, h, hs]
  · intro h; simp [revisions, h]
  · intro r h hs; simp [revisions, h, hs]
  · intro h; simp [file_name, h]
  · intro r h hs; simp [file_name, h, hs]

/-- Witness for C7 amended: against the all-down backend, the three
listing operations produce their respective sentinels. -/
theorem listing_failure_values_witness :
    (dir bDown exSession "u" false none none none none).1 = DirResult.failure ∧
    (revisions bDown exSession "u" none none none none).1 = [] ∧
    (file_name bDown exSession "u" none none none none).1 = [] := by
  obtain ⟨h1, h2, h3, h4, h5, h6, h7, h8⟩ :=
    listing_failure_values bDown exSession "u" none none none none _ rfl
  exact ⟨h1 rfl, h5 rfl, h7 rfl⟩

/-- C8: `put` called with the streaming-write mode raises (the
NotImplementedError outcome) before any remote call is issued, with an
empty call trace; in every other configuration `put` never produces
the raised outcome, returning the version stamp or the False
sentinel. -/
theorem put_return_open_raises (b : Backend) (s : Session) (uid : String)
    (payload : Option (List Nat)) (returnOpen : Bool)
    (user tenant : Option String) (roles : Option (List String))
    (claims : Option (List ClaimElem)) (now : Int) :
    (returnOpen = true →
        put b s uid payload returnOpen user tenant roles claims now =
          (PutOutcome.raised, [])) ∧
    (returnOpen = false →
        (put b s uid payload returnOpen user tenant roles claims now).1 ≠
          PutOutcome.raised) := by
  constructor
  · intro h; subst h; rfl
  · intro h
    subst h
    simp only [put, if_neg Bool.false_ne_true]
    cases b.putFileRpc uid (payload.getD [])
        (createAuthContext s user tenant roles claims) with
    | transportError => simp
    | reply r => by_cases hs : r.success <;> simp [hs]

/-- Witness for C8: requesting the streaming-write mode raises with no
remote call, and the same call without it does not raise. -/
theorem put_return_open_raises_witness :
    put bDown exSession "f" none true none none none none 0 =
      (PutOutcome.raised, []) ∧
    (put bDown exSession "f" none false none none none none 0).1 ≠
      PutOutcome.raised := by
  refine ⟨?_, ?_⟩
  · exact (put_return_open_raises bDown exSession "f" none true
      none none none none 0).1 rfl
  · exact (put_return_open_raises bDown exSession "f" none false
      none none none none 0).2 rfl

end FileEngine
